import Mathlib

/-!
Shallow embedding of the staged Steam GC diagnostic harness
(src/steam-gc-test.js) and proofs about its completion gate, failure
classification, configuration loading and timer layout.
-/

namespace SteamGcTest

/-- Possible values of the `result` string handed to `completeTest` by its
five callers in the source: the profile success callback passes SUCCESS or
NO_DATA, the profile request timer passes TIMEOUT, the GC-connection
watchdog passes GC_TIMEOUT, and the SIGINT/SIGTERM handlers pass
INTERRUPTED/TERMINATED. -/
inductive TestResult where
  | SUCCESS
  | NO_DATA
  | TIMEOUT
  | GC_TIMEOUT
  | INTERRUPTED
  | TERMINATED
deriving DecidableEq, Repr

/-- Exit code selected at the end of `completeTest`
(line 240: `process.exit(result === 'SUCCESS' ? 0 : 1)`). -/
def exitCode (r : TestResult) : Nat :=
  if r = .SUCCESS then 0 else 1

/-- Payload delivered to the `requestPlayersProfile` callback; the source
only tests it for truthiness and reads display fields. -/
structure Profile where
  account_id : Nat
deriving DecidableEq, Repr

/-- Observable state of the script: the mutable globals `testCompleted`
and `gcConnectStartTime`, the armed/cleared status of the three timers
(`testTimeout`, the anonymous 2-minute GC watchdog, `requestTimeout`),
and the externally visible effects (final result, scheduled exit code,
number of completion reports printed, number of `logOff` calls, console
log lines). -/
structure RunState where
  testCompleted : Bool
  gcConnectStartTime : Option Nat
  testTimeoutArmed : Bool
  gcTimerArmed : Bool
  requestTimeoutArmed : Bool
  result : Option TestResult
  exitScheduled : Option Nat
  reportsPrinted : Nat
  logOffCalls : Nat
  log : List String
deriving DecidableEq, Repr

/-- State right after module load: flags clear, the global 5-minute timer
and the 2-minute GC watchdog armed at top level, nothing completed. -/
def initState : RunState :=
  { testCompleted := false
    gcConnectStartTime := none
    testTimeoutArmed := true
    gcTimerArmed := true
    requestTimeoutArmed := false
    result := none
    exitScheduled := none
    reportsPrinted := 0
    logOffCalls := 0
    log := [] }

/-- Embedding of `completeTest(result)` (lines 197-242). The guard
`if (testCompleted) return` makes every call after the first a no-op;
the first call flips the flag, clears only the global `testTimeout`
handle, prints the completion report, calls `steamClient.logOff()`, and
schedules `process.exit(result === 'SUCCESS' ? 0 : 1)`. It does not touch
`requestTimeout` (a local of `testProfileRequest`) nor the anonymous GC
watchdog (which has no stored handle). -/
def completeTest (r : TestResult) (s : RunState) : RunState :=
  if s.testCompleted then s
  else
    { s with
      testCompleted := true
      testTimeoutArmed := false
      result := some r
      exitScheduled := some (exitCode r)
      reportsPrinted := s.reportsPrinted + 1
      logOffCalls := s.logOffCalls + 1
      log := s.log ++ ["TEST COMPLETED"] }

/-- Embedding of the `requestPlayersProfile` callback inside
`testProfileRequest` (lines 177-193): it first clears `requestTimeout`,
then calls `completeTest('SUCCESS')` when a profile object was delivered
and `completeTest('NO_DATA')` otherwise. -/
def profileCallback (p : Option Profile) (s : RunState) : RunState :=
  let s1 := { s with requestTimeoutArmed := false }
  match p with
  | some _ => completeTest .SUCCESS s1
  | none => completeTest .NO_DATA s1

/-- Embedding of the `requestTimeout` handler (lines 168-175): prints the
timeout diagnosis lines and calls `completeTest('TIMEOUT')`. -/
def requestTimeoutHandler (s : RunState) : RunState :=
  completeTest .TIMEOUT
    { s with
      log := s.log ++
        ["Profile Request Timeout (30s)", "GC is throttling requests (soft ban)"] }

/-- Embedding of the anonymous 2-minute GC watchdog handler
(lines 258-265): guarded by `if (!testCompleted && gcConnectStartTime)`;
when the guard holds it prints the soft-ban diagnosis and calls
`completeTest('GC_TIMEOUT')`, otherwise it does nothing. -/
def gcTimeoutHandler (s : RunState) : RunState :=
  if !s.testCompleted && s.gcConnectStartTime.isSome then
    completeTest .GC_TIMEOUT
      { s with
        log := s.log ++
          ["GC Connection Timeout (2 minutes)", "SOFT BAN LIKELY DETECTED"] }
  else s

/-- Values of `err.eresult` distinguished by the `steamClient.on('error')`
handler (lines 98-116), with a catch-all for every other numeric code.
The numeric view below records the Steam EResult constants the named
branches compare against. -/
inductive EResult where
  | InvalidPassword
  | TwoFactorCodeMismatch
  | AccountLoginDeniedNeedTwoFactor
  | RateLimitExceeded
  | Other (code : Nat)
deriving DecidableEq, Repr

/-- Numeric EResult code of each branch (steam-user constants:
InvalidPassword = 5, RateLimitExceeded = 84,
AccountLoginDeniedNeedTwoFactor = 85, TwoFactorCodeMismatch = 88). -/
def eresultCode : EResult → Nat
  | .InvalidPassword => 5
  | .RateLimitExceeded => 84
  | .AccountLoginDeniedNeedTwoFactor => 85
  | .TwoFactorCodeMismatch => 88
  | .Other c => c

/-- Diagnosis line printed by the corresponding branch of the error
handler (lines 103-113). -/
def errorDiagnosis : EResult → String
  | .InvalidPassword => "Invalid credentials"
  | .TwoFactorCodeMismatch => "2FA code mismatch"
  | .AccountLoginDeniedNeedTwoFactor => "2FA required but not provided correctly"
  | .RateLimitExceeded => "Login rate limited"
  | .Other _ => "Unknown error"

/-- Verdict taxonomy of the specification; ProtocolMismatch carries the
raw cause code that the catch-all diagnosis interpolates. -/
inductive VerdictKind where
  | Success
  | CredentialFailure
  | ProtocolMismatch (raw : Nat)
  | RateLimited
  | StageTimeout
  | GlobalTimeout
  | Interrupted
  | NoDataReturned
  | UnexpectedDisconnect
deriving DecidableEq, Repr

/-- Verdict assigned to each branch of the source error handler, using
the taxonomy of the specification: the invalid-password branch and the
two 2FA branches are credential failures (the 2FA sub-case shares the
CredentialFailure taxonomy entry), the rate-limit branch is RateLimited,
and the catch-all branch is ProtocolMismatch carrying the raw code it
prints. -/
def classifyAuthFailure : EResult → VerdictKind
  | .InvalidPassword => .CredentialFailure
  | .TwoFactorCodeMismatch => .CredentialFailure
  | .AccountLoginDeniedNeedTwoFactor => .CredentialFailure
  | .RateLimitExceeded => .RateLimited
  | .Other c => .ProtocolMismatch c

/-- Cause matches "invalid credential": the handler branch comparing
against `SteamUser.EResult.InvalidPassword`. -/
def matchesInvalidCredential : EResult → Bool
  | .InvalidPassword => true
  | _ => false

/-- Cause matches "rate limit": the handler branch comparing against
`SteamUser.EResult.RateLimitExceeded`. -/
def matchesRateLimit : EResult → Bool
  | .RateLimitExceeded => true
  | _ => false

/-- Cause is one of the two dedicated 2FA branches of the handler. -/
def matchesTwoFactor : EResult → Bool
  | .TwoFactorCodeMismatch => true
  | .AccountLoginDeniedNeedTwoFactor => true
  | _ => false

/-- Modelled from the claim wording of C5: invalid credential gives
CredentialFailure, rate limit gives RateLimited, and any other cause
gives ProtocolMismatch with the raw cause code. Stated for comparison
with `classifyAuthFailure`, which follows the source branches. -/
def claimClassify (e : EResult) : VerdictKind :=
  if matchesInvalidCredential e then .CredentialFailure
  else if matchesRateLimit e then .RateLimited
  else .ProtocolMismatch (eresultCode e)

/-- Immediate effect of a handler: hand a result to the completion gate
(`completeTest`), terminate the process directly with an exit code, or
do nothing. -/
inductive Action where
  | callGate (r : TestResult)
  | exitDirect (code : Nat)
  | noop
deriving DecidableEq, Repr

/-- Whether the action goes through the completion gate. -/
def Action.isGateCall : Action → Bool
  | .callGate _ => true
  | _ => false

/-- The `steamClient.on('error')` handler (lines 98-116) prints the
diagnosis and then calls `process.exit(1)` directly, for every eresult. -/
def steamErrorAction (_e : EResult) : Action := .exitDirect 1

/-- The `steamClient.on('disconnected')` handler (lines 134-140): when
the test is not completed it calls `process.exit(1)` directly. -/
def steamDisconnectedAction (s : RunState) : Action :=
  if s.testCompleted then .noop else .exitDirect 1

/-- The `csgo.on('disconnectedFromGC')` handler (lines 154-160): when
the test is not completed it calls `process.exit(1)` directly. -/
def gcDisconnectedAction (s : RunState) : Action :=
  if s.testCompleted then .noop else .exitDirect 1

/-- The global 5-minute `testTimeout` handler (lines 73-82): when the
test is not completed it calls `process.exit(1)` directly. -/
def testTimeoutAction (s : RunState) : Action :=
  if s.testCompleted then .noop else .exitDirect 1

/-- The SIGINT handler (lines 268-271) calls `completeTest('INTERRUPTED')`. -/
def sigintAction : Action := .callGate .INTERRUPTED

/-- The SIGTERM handler (lines 273-276) calls `completeTest('TERMINATED')`. -/
def sigtermAction : Action := .callGate .TERMINATED

/-- All handler reactions to terminal signals from external
collaborators and timers, at a given state and error cause. -/
def terminalActions (s : RunState) (e : EResult) : List Action :=
  [steamErrorAction e, steamDisconnectedAction s, gcDisconnectedAction s,
   testTimeoutAction s, sigintAction, sigtermAction]

/-- Default `test_steam_id` substituted by `loadConfig` when the field is
absent (line 40). -/
def defaultTestSteamId : String := "76561199556731347"

/-- Fields of config.json as they may or may not appear in the parsed
object; a missing key is `none`. -/
structure RawConfig where
  steam_username : Option String
  steam_password : Option String
  shared_secret : Option String
  test_steam_id : Option String
deriving DecidableEq, Repr

/-- Validated configuration returned by `loadConfig`. -/
structure Config where
  steam_username : String
  steam_password : String
  shared_secret : String
  test_steam_id : String
deriving DecidableEq, Repr

/-- JS truthiness test performed by `if (!config[field])`: a field counts
as supplied when the key exists with a non-empty string. -/
def present : Option String → Bool
  | none => false
  | some s => !(s == "")

/-- The three fields the source lists in `required` (line 30). -/
def requiredPresent (c : RawConfig) : Bool :=
  present c.steam_username && present c.steam_password && present c.shared_secret

/-- Embedding of the field-validation part of `loadConfig` (lines 29-43):
it walks `required = [steam_username, steam_password, shared_secret]` and
exits with code 1 at the first missing or falsy field; `test_steam_id` is
not in the list and is defaulted when absent or falsy. -/
def loadConfig (c : RawConfig) : Except Nat Config :=
  if !present c.steam_username then .error 1
  else if !present c.steam_password then .error 1
  else if !present c.shared_secret then .error 1
  else
    .ok
      { steam_username := c.steam_username.getD ""
        steam_password := c.steam_password.getD ""
        shared_secret := c.shared_secret.getD ""
        test_steam_id :=
          if present c.test_steam_id then c.test_steam_id.getD ""
          else defaultTestSteamId }

/-- The GC-connection watchdog is armed by a top-level `setTimeout`
executed at module load (line 258), so its arm time is process start. -/
def gcTimerArmTime : Nat := 0

/-- Duration of the GC-connection watchdog (line 265): 120000 ms. -/
def gcTimerDuration : Nat := 120000

/-- Absolute time (ms from process start) at which the GC-connection
watchdog fires: its arm time plus its duration. -/
def gcTimerFireTime : Nat := gcTimerArmTime + gcTimerDuration

/-- Duration of the profile request timer (line 175): 30000 ms. -/
def requestTimerDuration : Nat := 30000

/-- The profile request timer is armed inside `testProfileRequest`
(line 168), so it fires its duration after the request stage starts. -/
def requestTimerFireTime (requestStartTime : Nat) : Nat :=
  requestStartTime + requestTimerDuration

/-- A reachable pre-finalization state: login and GC connection
succeeded (gcConnectStartTime set), the profile request is in flight
with its 30-second timer armed, the top-level GC watchdog and global
timer still armed. -/
def preFinalState : RunState :=
  { initState with
    gcConnectStartTime := some 1000
    requestTimeoutArmed := true }

/-- Concrete profile payload used to instantiate the callback. -/
def sampleProfile : Profile := { account_id := 42 }

/-- A config.json with all three required fields and an explicit
test_steam_id. -/
def fullRawConfig : RawConfig :=
  { steam_username := some "user"
    steam_password := some "pass"
    shared_secret := some "abc"
    test_steam_id := some "76561198000000000" }

/-- A config.json with every field absent. -/
def emptyRawConfig : RawConfig :=
  { steam_username := none
    steam_password := none
    shared_secret := none
    test_steam_id := none }

/-! Helper lemmas shared by the claim theorems. -/

theorem completeTest_of_completed (x : TestResult) (s : RunState)
    (h : s.testCompleted = true) : completeTest x s = s := by
  simp [completeTest, h]

theorem foldl_completeTest_of_completed (rs : List TestResult) (s : RunState)
    (h : s.testCompleted = true) :
    rs.foldl (fun s x => completeTest x s) s = s := by
  induction rs with
  | nil => rfl
  | cons x xs ih => rw [List.foldl_cons, completeTest_of_completed x s h]; exact ih

/-- C1: only the first call to `completeTest` finalizes the run (flips
`testCompleted`, prints the completion report once, logs off once,
schedules the process exit); any call on an already-completed state
leaves the state unchanged, so any sequence of calls from the five
trigger sources is equivalent to its first call alone and the report is
emitted exactly once. -/
theorem completeTest_exactly_once :
    (∀ (x : TestResult) (s : RunState), s.testCompleted = true →
        completeTest x s = s) ∧
    (∀ (r : TestResult) (rs : List TestResult) (s0 : RunState),
        s0.testCompleted = false →
        (r :: rs).foldl (fun s x => completeTest x s) s0 = completeTest r s0 ∧
        (completeTest r s0).testCompleted = true ∧
        (completeTest r s0).reportsPrinted = s0.reportsPrinted + 1 ∧
        (completeTest r s0).logOffCalls = s0.logOffCalls + 1 ∧
        (completeTest r s0).exitScheduled = some (exitCode r)) := by
  constructor
  · exact completeTest_of_completed
  · intro r rs s0 h
    have h1 : (completeTest r s0).testCompleted = true := by
      simp [completeTest, h]
    refine ⟨?_, h1, ?_, ?_, ?_⟩
    · rw [List.foldl_cons]
      exact foldl_completeTest_of_completed rs _ h1
    · simp [completeTest, h]
    · simp [completeTest, h]
    · simp [completeTest, h]

/-- C1 witness: instantiation at concrete states and results. -/
theorem completeTest_exactly_once_witness :
    completeTest .INTERRUPTED (completeTest .SUCCESS initState) =
        completeTest .SUCCESS initState ∧
    [TestResult.SUCCESS, .INTERRUPTED].foldl (fun s x => completeTest x s) initState =
        completeTest .SUCCESS initState ∧
    (completeTest .SUCCESS initState).reportsPrinted = initState.reportsPrinted + 1 := by
  refine ⟨?_, ?_, ?_⟩
  · exact completeTest_exactly_once.1 .INTERRUPTED _ (by decide)
  · exact (completeTest_exactly_once.2 .SUCCESS [.INTERRUPTED] initState (by decide)).1
  · exact (completeTest_exactly_once.2 .SUCCESS [.INTERRUPTED] initState (by decide)).2.2.1

/-- C2 counterexample: the Steam error handler, on an invalid-password
authentication error, exits the process directly with code 1 and never
invokes the completion gate, refuting the claim that every terminal
signal is handed to `completeTest`. -/
theorem steamError_bypasses_gate :
    steamErrorAction .InvalidPassword = .exitDirect 1 ∧
    (steamErrorAction .InvalidPassword).isGateCall = false := by
  decide

/-- C2 amended: the authentication-error handler terminates the process
directly with exit code 1 unconditionally (it has no finalized guard);
the session-disconnect, GC-disconnect and global-timeout handlers
terminate directly with exit code 1 when the run is not finalized and do
nothing when it is; the SIGINT and SIGTERM handlers hand their signal to
the completion gate; every terminal action is one of gate call, direct
exit 1, or no-op, so none propagates as an uncaught fault. -/
theorem terminal_signal_policy :
    (∀ (s : RunState) (e : EResult) (a : Action), a ∈ terminalActions s e →
        a = .exitDirect 1 ∨ a = .noop ∨ a.isGateCall = true) ∧
    (∀ e : EResult, steamErrorAction e = .exitDirect 1) ∧
    (∀ s : RunState, s.testCompleted = false →
        steamDisconnectedAction s = .exitDirect 1 ∧
        gcDisconnectedAction s = .exitDirect 1 ∧
        testTimeoutAction s = .exitDirect 1) ∧
    (∀ s : RunState, s.testCompleted = true →
        steamDisconnectedAction s = .noop ∧
        gcDisconnectedAction s = .noop ∧
        testTimeoutAction s = .noop) ∧
    sigintAction = .callGate .INTERRUPTED ∧
    sigtermAction = .callGate .TERMINATED := by
  refine ⟨?_, fun _ => rfl, ?_, ?_, rfl, rfl⟩
  · intro s e a ha
    simp only [terminalActions, List.mem_cons, List.not_mem_nil, or_false] at ha
    cases hts : s.testCompleted <;>
      rcases ha with h | h | h | h | h | h <;> subst h <;>
        simp [steamErrorAction, steamDisconnectedAction, gcDisconnectedAction,
          testTimeoutAction, sigintAction, sigtermAction, Action.isGateCall, hts]
  · intro s h
    simp [steamDisconnectedAction, gcDisconnectedAction, testTimeoutAction, h]
  · intro s h
    simp [steamDisconnectedAction, gcDisconnectedAction, testTimeoutAction, h]

/-- C2 amended witness: instantiation with an invalid-password error, at
the initial (not finalized) state and at a finalized state. -/
theorem terminal_signal_policy_witness :
    (steamErrorAction .InvalidPassword = .exitDirect 1 ∨
        steamErrorAction .InvalidPassword = .noop ∨
        (steamErrorAction .InvalidPassword).isGateCall = true) ∧
    steamErrorAction .InvalidPassword = .exitDirect 1 ∧
    (steamDisconnectedAction initState = .exitDirect 1 ∧
        gcDisconnectedAction initState = .exitDirect 1 ∧
        testTimeoutAction initState = .exitDirect 1) ∧
    (steamDisconnectedAction (completeTest .SUCCESS initState) = .noop ∧
        gcDisconnectedAction (completeTest .SUCCESS initState) = .noop ∧
        testTimeoutAction (completeTest .SUCCESS initState) = .noop) := by
  refine ⟨?_, ?_, ?_, ?_⟩
  · exact terminal_signal_policy.1 initState .InvalidPassword _ (by decide)
  · exact terminal_signal_policy.2.1 .InvalidPassword
  · exact terminal_signal_policy.2.2.1 initState (by decide)
  · exact terminal_signal_policy.2.2.2.1 (completeTest .SUCCESS initState) (by decide)

/-- C3 counterexample: at a reachable pre-finalization state with the
profile request timer armed and the GC watchdog armed, the first
(finalizing) call to `completeTest` leaves both stage-local timers
armed, refuting the claim that it cancels every armed timer. -/
theorem completeTest_leaves_stage_timers_armed :
    preFinalState.testCompleted = false ∧
    preFinalState.requestTimeoutArmed = true ∧
    preFinalState.gcTimerArmed = true ∧
    (completeTest .INTERRUPTED preFinalState).testCompleted = true ∧
    (completeTest .INTERRUPTED preFinalState).requestTimeoutArmed = true ∧
    (completeTest .INTERRUPTED preFinalState).gcTimerArmed = true := by
  decide

/-- C3 amended: on the first successful finalization `completeTest`
cancels only the global 5-minute timer; the profile-request timer and
the GC-connection watchdog are left exactly as they were (the former is
cancelled only by the profile callback, the latter has no stored handle
and is never cancelled, its handler being guarded by the finalized
flag). -/
theorem completeTest_cancels_only_global :
    ∀ (r : TestResult) (s : RunState), s.testCompleted = false →
      (completeTest r s).testTimeoutArmed = false ∧
      (completeTest r s).requestTimeoutArmed = s.requestTimeoutArmed ∧
      (completeTest r s).gcTimerArmed = s.gcTimerArmed := by
  intro r s h
  simp [completeTest, h]

/-- C3 amended witness: instantiation at the pre-finalization state. -/
theorem completeTest_cancels_only_global_witness :
    (completeTest .TIMEOUT preFinalState).testTimeoutArmed = false ∧
    (completeTest .TIMEOUT preFinalState).requestTimeoutArmed =
        preFinalState.requestTimeoutArmed ∧
    (completeTest .TIMEOUT preFinalState).gcTimerArmed = preFinalState.gcTimerArmed :=
  completeTest_cancels_only_global .TIMEOUT preFinalState (by decide)

/-- C4: the exit code scheduled by `completeTest` is 0 exactly for the
SUCCESS result and 1 for every other result, and every direct
process-exit taken by a terminal-signal handler uses code 1, so the
process exit code is 0 exactly when the verdict is Success. -/
theorem exit_code_zero_iff_success :
    (∀ r : TestResult, exitCode r = 0 ↔ r = .SUCCESS) ∧
    (∀ (r : TestResult) (s : RunState), s.testCompleted = false →
        (completeTest r s).exitScheduled = some (exitCode r)) ∧
    (∀ (s : RunState) (e : EResult) (c : Nat),
        Action.exitDirect c ∈ terminalActions s e → c = 1) := by
  refine ⟨?_, ?_, ?_⟩
  · intro r
    cases r <;> simp [exitCode]
  · intro r s h
    simp [completeTest, h]
  · intro s e c hc
    cases hts : s.testCompleted <;>
      simp [terminalActions, steamErrorAction, steamDisconnectedAction,
        gcDisconnectedAction, testTimeoutAction, sigintAction, sigtermAction,
        hts] at hc <;>
      omega

/-- C4 witness: instantiation at concrete results, states and actions. -/
theorem exit_code_zero_iff_success_witness :
    (exitCode .SUCCESS = 0 ↔ TestResult.SUCCESS = .SUCCESS) ∧
    (completeTest .NO_DATA initState).exitScheduled = some (exitCode .NO_DATA) ∧
    (1 : Nat) = 1 := by
  refine ⟨exit_code_zero_iff_success.1 .SUCCESS, ?_, ?_⟩
  · exact exit_code_zero_iff_success.2.1 .NO_DATA initState (by decide)
  · exact exit_code_zero_iff_success.2.2 initState .InvalidPassword 1 (by decide)

/-- C5 counterexample: the two-factor-mismatch cause matches neither
"invalid credential" nor "rate limit", so the claim's catch-all assigns
it ProtocolMismatch with its raw code 88; the source instead gives it
the dedicated 2FA credential diagnosis, which is the CredentialFailure
taxonomy entry, refuting the claimed three-way mapping. -/
theorem twoFactor_not_protocol_mismatch :
    matchesInvalidCredential .TwoFactorCodeMismatch = false ∧
    matchesRateLimit .TwoFactorCodeMismatch = false ∧
    claimClassify .TwoFactorCodeMismatch = .ProtocolMismatch 88 ∧
    classifyAuthFailure .TwoFactorCodeMismatch = .CredentialFailure ∧
    claimClassify .TwoFactorCodeMismatch ≠ classifyAuthFailure .TwoFactorCodeMismatch := by
  decide

/-- C5 amended: the Authenticate-stage failure classification is
deterministic in the cause: an invalid-credential cause or one of the
two dedicated two-factor causes yields CredentialFailure, a rate-limit
cause yields RateLimited, and any other cause yields ProtocolMismatch
carrying the raw cause code. -/
theorem classifyAuthFailure_deterministic :
    ∀ e : EResult, classifyAuthFailure e =
      if matchesInvalidCredential e || matchesTwoFactor e then .CredentialFailure
      else if matchesRateLimit e then .RateLimited
      else .ProtocolMismatch (eresultCode e) := by
  intro e
  cases e <;> rfl

/-- C6: the profile callback cancels the request timer, and completes
with SUCCESS when a profile payload was delivered and NO_DATA when the
payload is empty. -/
theorem profileCallback_classification :
    ∀ (p : Option Profile) (s : RunState), s.testCompleted = false →
      (profileCallback p s).requestTimeoutArmed = false ∧
      (profileCallback p s).testCompleted = true ∧
      (profileCallback p s).result =
        some (if p.isSome then TestResult.SUCCESS else .NO_DATA) := by
  intro p s h
  cases p <;> simp [profileCallback, completeTest, h]

/-- C6 witness: instantiation at a concrete delivered profile. -/
theorem profileCallback_classification_witness :
    (profileCallback (some sampleProfile) initState).requestTimeoutArmed = false ∧
    (profileCallback (some sampleProfile) initState).testCompleted = true ∧
    (profileCallback (some sampleProfile) initState).result =
        some (if (some sampleProfile).isSome then TestResult.SUCCESS else .NO_DATA) :=
  profileCallback_classification (some sampleProfile) initState (by decide)

/-- C7: when the 30-second profile request timer fires before the run is
finalized, the run finalizes with the TIMEOUT result (the StageTimeout
verdict), the soft-throttling diagnosis is printed, and exit code 1 is
scheduled. -/
theorem requestTimeout_finalizes :
    ∀ s : RunState, s.testCompleted = false →
      (requestTimeoutHandler s).testCompleted = true ∧
      (requestTimeoutHandler s).result = some .TIMEOUT ∧
      (requestTimeoutHandler s).exitScheduled = some 1 ∧
      "GC is throttling requests (soft ban)" ∈ (requestTimeoutHandler s).log := by
  intro s h
  refine ⟨?_, ?_, ?_, ?_⟩ <;>
    simp [requestTimeoutHandler, completeTest, exitCode, h]

/-- C7 witness: instantiation at the pre-finalization state. -/
theorem requestTimeout_finalizes_witness :
    (requestTimeoutHandler preFinalState).testCompleted = true ∧
    (requestTimeoutHandler preFinalState).result = some .TIMEOUT ∧
    (requestTimeoutHandler preFinalState).exitScheduled = some 1 ∧
    "GC is throttling requests (soft ban)" ∈ (requestTimeoutHandler preFinalState).log :=
  requestTimeout_finalizes preFinalState (by decide)

/-- C8 counterexample: a config supplying the three credentials but no
test_steam_id is accepted by `loadConfig`, which substitutes the default
identifier instead of terminating, refuting the claim that all four
values are required. -/
theorem missing_target_id_not_fatal :
    loadConfig
        { steam_username := some "u", steam_password := some "p",
          shared_secret := some "s", test_steam_id := none } =
      .ok
        { steam_username := "u", steam_password := "p", shared_secret := "s",
          test_steam_id := defaultTestSteamId } := by
  rfl

/-- C8 amended: only the account identity, account secret and shared
secret are required at startup; absence or emptiness of any of those
three causes a startup-time fatal exit with code 1, while a missing or
empty target identifier is replaced by the default and does not
terminate. -/
theorem loadConfig_requires_three :
    ∀ c : RawConfig,
      (requiredPresent c = false → loadConfig c = .error 1) ∧
      (requiredPresent c = true → loadConfig c =
        .ok
          { steam_username := c.steam_username.getD ""
            steam_password := c.steam_password.getD ""
            shared_secret := c.shared_secret.getD ""
            test_steam_id :=
              if present c.test_steam_id then c.test_steam_id.getD ""
              else defaultTestSteamId }) := by
  intro c
  cases h1 : present c.steam_username <;>
    cases h2 : present c.steam_password <;>
      cases h3 : present c.shared_secret <;>
        simp [loadConfig, requiredPresent, h1, h2, h3]

/-- C8 amended witness: a full config is accepted and an empty config is
rejected with exit code 1. -/
theorem loadConfig_requires_three_witness :
    loadConfig emptyRawConfig = .error 1 ∧
    loadConfig fullRawConfig =
      .ok
        { steam_username := fullRawConfig.steam_username.getD ""
          steam_password := fullRawConfig.steam_password.getD ""
          shared_secret := fullRawConfig.shared_secret.getD ""
          test_steam_id :=
            if present fullRawConfig.test_steam_id then fullRawConfig.test_steam_id.getD ""
            else defaultTestSteamId } := by
  refine ⟨?_, ?_⟩
  · exact (loadConfig_requires_three emptyRawConfig).1 (by decide)
  · exact (loadConfig_requires_three fullRawConfig).2 (by decide)

/-- C9: evaluation at the failing input. The GC-connection watchdog is
armed at module load, so it fires at absolute time 120000 ms; in a run
where the GC connection attempt starts at 90000 ms, the watchdog fires
only 30000 ms into the handshake stage rather than its configured
duration after stage entry, contradicting the source comment that it
runs 2 minutes after the GC connection attempt starts (the profile
request timer, by contrast, does fire its duration after its stage
starts). -/
theorem gcTimer_measured_from_load :
    gcTimerArmTime = 0 ∧
    gcTimerFireTime = 120000 ∧
    gcTimerFireTime - 90000 = 30000 ∧
    gcTimerFireTime ≠ 90000 + gcTimerDuration ∧
    requestTimerFireTime 90000 = 90000 + requestTimerDuration := by
  decide

/-- C10: when the GC watchdog fires while the GC connection attempt has
not started (gcConnectStartTime still none) or while the run is already
finalized, the handler leaves the state completely unchanged: nothing is
printed and no finalization occurs. -/
theorem gcTimeoutHandler_noop :
    ∀ s : RunState, s.testCompleted = true ∨ s.gcConnectStartTime = none →
      gcTimeoutHandler s = s := by
  intro s h
  rcases h with h | h <;> simp [gcTimeoutHandler, h]

/-- C10 witness: instantiation at the initial state, where the GC
connection attempt has not started. -/
theorem gcTimeoutHandler_noop_witness :
    gcTimeoutHandler initState = initState :=
  gcTimeoutHandler_noop initState (Or.inr rfl)

end SteamGcTest
